import Mathlib

/-!
Verification development for the reportHanter parsing/filtering core.

This file gives a shallow embedding, in Lean 4, of the data-wrangling and
filtering pipeline of the repository (Kraken and Kaiju table wrangling and
filtering, BWA-flagstat parsing, the BLAST batch driver, and the FastP
summary extraction), together with theorems settling the frozen claims
about that pipeline.

Modelling conventions:
- pandas tables become lists of row structures; a missing value (NaN / NA)
  in a cell is Option.none; column-wise operations become list operations.
- Python floats are modelled as exact rationals; the claims proved here
  concern comparisons, ordering and exactly-representable values, where
  the rational model and IEEE doubles agree.
- Python exceptions become an Except value with an explicit error type.
- The external blastn process is modelled by an outcome value per query
  (captured stdout, a timeout, or a non-zero exit status) supplied as
  input; the regular-expression extraction of re.findall in the flagstat
  parsers is modelled by passing the lists of matched digit strings, which
  is the exact information those parsers consume.
-/

/-! ## Kraken: rows, wrangling (reporthanter/kraken.py lines 9 to 36, and
processors/kraken_processor.py KrakenProcessor._process_file lines 42 to 62) -/

/-- A raw row of a Kraken TSV file as read by pd.read_csv with
names percent, count_clades, count, tax_lvl, taxonomy_id, name.
Every cell may be missing (NaN), hence the Option fields. -/
structure KrakenRawRow where
  percent : Option ℚ
  count_clades : Option ℤ
  count : Option ℤ
  tax_lvl : Option String
  taxonomy_id : Option ℤ
  name : Option String
deriving Repr, DecidableEq

/-- A wrangled Kraken row: the six input columns plus the derived domain
column added by wrangle_kraken. -/
structure KrakenRow where
  percent : Option ℚ
  count_clades : Option ℤ
  count : Option ℤ
  tax_lvl : Option String
  taxonomy_id : Option ℤ
  name : Option String
  domain : Option String
deriving Repr, DecidableEq

/-- Whitespace test used by the model of Python str.strip. -/
def isPySpace (c : Char) : Bool :=
  c == ' ' || c == '\t' || c == '\n' || c == '\r'

/-- Model of Python str.strip: remove leading and trailing whitespace.
Implemented over the character list so that it evaluates by kernel
reduction. -/
def stripChars (s : String) : String :=
  String.mk (((s.data.dropWhile isPySpace).reverse.dropWhile isPySpace).reverse)

/-- Model of x.tax_lvl.isin with the list D, U, R in wrangle_kraken: a
missing rank code is not a member (pandas isin is False on NaN). -/
def isDUR : Option String → Bool
  | some t => t == "D" || t == "U" || t == "R"
  | none => false

/-- The two assign steps of wrangle_kraken: strip the name, then set
domain to the (stripped) name where the rank code is D, U or R and to NA
elsewhere (np.select with default pd.NA; a missing name stays missing). -/
def assignRow (r : KrakenRawRow) : KrakenRow :=
  { percent := r.percent
    count_clades := r.count_clades
    count := r.count
    tax_lvl := r.tax_lvl
    taxonomy_id := r.taxonomy_id
    name := r.name.map stripChars
    domain := if isDUR r.tax_lvl then r.name.map stripChars else none }

/-- One row of DataFrame.ffill: each cell keeps its value when present and
otherwise takes the carried value of its column. -/
def ffillStep (carry r : KrakenRow) : KrakenRow :=
  { percent := r.percent.or carry.percent
    count_clades := r.count_clades.or carry.count_clades
    count := r.count.or carry.count
    tax_lvl := r.tax_lvl.or carry.tax_lvl
    taxonomy_id := r.taxonomy_id.or carry.taxonomy_id
    name := r.name.or carry.name
    domain := r.domain.or carry.domain }

/-- The all-missing carry with which DataFrame.ffill starts. -/
def emptyKrakenRow : KrakenRow :=
  ⟨none, none, none, none, none, none, none⟩

/-- DataFrame.ffill over the whole table: walk the rows top to bottom,
carrying per column the most recent non-missing value. -/
def ffillRows (carry : KrakenRow) : List KrakenRow → List KrakenRow
  | [] => []
  | r :: rs => ffillStep carry r :: ffillRows (ffillStep carry r) rs

/-- wrangle_kraken (kraken.py lines 9 to 36): read rows, strip names,
derive the domain column, then ffill the whole table.
KrakenProcessor._process_file performs the same steps (and additionally
divides percent by 100, which kraken_df does via kraken_df_table below). -/
def wrangle_kraken (rows : List KrakenRawRow) : List KrakenRow :=
  ffillRows emptyKrakenRow (rows.map assignRow)

/-- Column-wise last-observation-carried-forward with an initial carry:
the reference form of ffill on a single column, used to state what
ffillRows does per column. -/
def locfCarry {α : Type} (c : Option α) : List (Option α) → List (Option α)
  | [] => []
  | x :: xs => x.or c :: locfCarry (x.or c) xs

/-- The most recent non-missing value of a column at or before index i. -/
def lastObserved {α : Type} (xs : List (Option α)) (i : ℕ) : Option α :=
  ((xs.take (i + 1)).reverse).findSome? id

/-! ## Kraken: filtering (kraken.py kraken_df lines 38 to 90, and
processors/kraken_processor.py KrakenProcessor.filter_data lines 64 to 90) -/

/-- Pandas comparison column > cutoff: False on a missing value. -/
def optGtQ (x : Option ℚ) (cutoff : ℚ) : Bool :=
  match x with
  | some v => decide (cutoff < v)
  | none => false

/-- The ordering used by sort_values on percent with ascending False:
larger fractions first, missing values last. -/
def percentLe (a b : Option ℚ) : Bool :=
  match a, b with
  | some x, some y => decide (y ≤ x)
  | some _, none => true
  | none, some _ => false
  | none, none => true

/-- The taxonomy dict of kraken_df, mapping a level name to its
single-letter rank code; none models the KeyError branch. -/
def taxonomyCode (level : String) : Option String :=
  if level = "domain" then some "D"
  else if level = "phylum" then some "P"
  else if level = "class" then some "K"
  else if level = "order" then some "O"
  else if level = "family" then some "F"
  else if level = "genus" then some "G"
  else if level = "species" then some "S"
  else none

/-- wrangle_kraken followed by the assign step of kraken_df that converts
percent from the 0..100 scale to a 0..1 fraction (NaN stays NaN). -/
def kraken_df_table (rows : List KrakenRawRow) : List KrakenRow :=
  (wrangle_kraken rows).map (fun r => { r with percent := r.percent.map (fun p => p / 100) })

/-- Unclassified-fraction extraction of kraken_df (lines 66 to 74): select
the rows whose domain equals unclassified; 0 when there is none, the
percent of the single row otherwise (Series.squeeze; several rows would
squeeze to a Series, not a scalar, modelled as none). -/
def kraken_unclassified (df : List KrakenRow) : Option ℚ :=
  match df.filter (fun r => r.domain == some "unclassified") with
  | [] => some 0
  | [r] => r.percent
  | _ => none

/-- The filter pipeline of kraken_df (lines 76 to 90): keep the requested
rank code, keep fractions strictly above the cutoff, sort by fraction
descending, optionally keep only the Viruses domain, truncate.
KrakenProcessor.filter_data applies the same steps. -/
def krakenFilterPipeline (df : List KrakenRow) (code : String) (cutoff : ℚ)
    (max_entries : ℕ) (virus_only : Bool) : List KrakenRow :=
  if virus_only then
    ((((df.filter (fun r => r.tax_lvl == some code)).filter
        (fun r => optGtQ r.percent cutoff)).mergeSort
        (fun a b => percentLe a.percent b.percent)).filter
        (fun r => r.domain == some "Viruses")).take max_entries
  else
    (((df.filter (fun r => r.tax_lvl == some code)).filter
        (fun r => optGtQ r.percent cutoff)).mergeSort
        (fun a b => percentLe a.percent b.percent)).take max_entries

/-- kraken_df (kraken.py lines 38 to 90): wrangle, divide percent by 100,
extract the unclassified fraction, filter at the requested level; a level
name outside the taxonomy dict raises KeyError. -/
def kraken_df (rows : List KrakenRawRow) (level : String) (cutoff : ℚ)
    (max_entries : ℕ) (virus_only : Bool) :
    Except String (List KrakenRow × Option ℚ) :=
  match taxonomyCode level with
  | none => Except.error "KeyError: level"
  | some code =>
    let df := kraken_df_table rows
    Except.ok (krakenFilterPipeline df code cutoff max_entries virus_only,
      kraken_unclassified df)

/-! ## Kaiju (reporthanter/kaiju.py plot_kaiju lines 28 to 76, and
processors/kaiju_processor.py KaijuProcessor lines 33 to 57) -/

/-- A row of a Kaiju TSV file after the percent column has been divided
by 100; only the columns the filtering consumes are modelled. -/
structure KaijuRow where
  percent : Option ℚ
  taxon_name : Option String
  reads : Option ℤ
deriving Repr, DecidableEq

/-- A Kaiju table: its rows plus whether the optional file column is
present (its values are never consumed, only dropped). -/
structure KaijuTable where
  hasFileCol : Bool
  rows : List KaijuRow
deriving Repr, DecidableEq

/-- The x.taxon_name equals unclassified test (False on a missing name). -/
def isUnclassifiedKaiju (r : KaijuRow) : Bool :=
  r.taxon_name == some "unclassified"

/-- Unclassified extraction of plot_kaiju (kaiju.py lines 51 to 59): 0.0
when no unclassified row exists, otherwise Series.squeeze of the
selection (a single row squeezes to its percent; several rows squeeze to
a Series, not a scalar, modelled as none). -/
def kaiju_unclassified_plot (rows : List KaijuRow) : Option ℚ :=
  match rows.filter isUnclassifiedKaiju with
  | [] => some 0
  | [r] => r.percent
  | _ => none

/-- Unclassified extraction of KaijuProcessor.filter_data (lines 44 to
46): percent.iloc 0 of the selection when non-empty, else 0.0. -/
def KaijuProcessor.unclassified_pct (rows : List KaijuRow) : Option ℚ :=
  match rows.filter isUnclassifiedKaiju with
  | [] => some 0
  | r :: _ => r.percent

/-- The shared Kaiju filter chain (kaiju.py lines 66 to 72 after the
column drop, and kaiju_processor.py lines 49 to 55): sort by fraction
descending, drop the unclassified row (a missing taxon_name is kept,
as NaN != unclassified holds in pandas), keep fractions strictly above
the cutoff, truncate. Dropping the file column does not change any row
content, so both callers reduce to this chain on their rows. -/
def kaijuFilterPipeline (rows : List KaijuRow) (cutoff : ℚ) (max_entries : ℕ) :
    List KaijuRow :=
  (((rows.mergeSort (fun a b => percentLe a.percent b.percent)).filter
      (fun r => !(isUnclassifiedKaiju r))).filter
      (fun r => optGtQ r.percent cutoff)).take max_entries

/-- KaijuProcessor.filter_data (lines 38 to 57): drop the file column
with errors ignore (so absence is fine), run the filter chain, and pair
it with the unclassified fraction. The boolean masks are computed on the
original frame and applied to the sorted frame by label alignment, which
on the unique default index selects exactly the rows the direct filter
selects. -/
def KaijuProcessor.filter_data (t : KaijuTable) (cutoff : ℚ) (max_entries : ℕ) :
    List KaijuRow × Option ℚ :=
  (kaijuFilterPipeline t.rows cutoff max_entries,
    KaijuProcessor.unclassified_pct t.rows)

/-- The filter block of plot_kaiju (kaiju.py lines 64 to 72): drop the
file column unconditionally, which raises KeyError when the column is
absent, then run the filter chain. -/
def plot_kaiju_filter (t : KaijuTable) (cutoff : ℚ) (max_entries : ℕ) :
    Except String (List KaijuRow) :=
  if t.hasFileCol then
    Except.ok (kaijuFilterPipeline t.rows cutoff max_entries)
  else
    Except.error "KeyError: file"

/-! ## Flagstat parsing (reporthanter/flagstat.py parse_bwa_flagstat lines
9 to 20, and processors/flagstat_processor.py
FlagstatProcessor._parse_flagstat lines 51 to 79) -/

/-- The Python exceptions these components can surface. The repository
wraps parse-classified failures in DataProcessingError
(core/exceptions.py); IndexError, ValueError and ZeroDivisionError are
builtin exceptions that escape unwrapped. -/
inductive PyError where
  | IndexError : PyError
  | ValueError : PyError
  | ZeroDivisionError : PyError
  | CalledProcessError (exitCode : ℤ) : PyError
  | DataProcessingError (msg : String) : PyError
deriving Repr, DecidableEq

/-- Value of a decimal digit character, none on a non-digit. -/
def digitVal (c : Char) : Option ℕ :=
  if c.isDigit then some (c.toNat - 48) else none

/-- Accumulate a decimal digit string; none when a non-digit appears. -/
def parseDigitsAux : List Char → ℕ → Option ℕ
  | [], acc => some acc
  | c :: cs, acc =>
    match digitVal c with
    | some d => parseDigitsAux cs (acc * 10 + d)
    | none => none

/-- Model of Python int() on the strings produced by the digit-group
regular expressions: the empty string and any non-digit raise ValueError
(the legacy pattern uses a starred digit group, so an empty capture is
possible there). -/
def pyInt (s : String) : Except PyError ℤ :=
  match s.data with
  | [] => Except.error PyError.ValueError
  | cs =>
    match parseDigitsAux cs 0 with
    | some n => Except.ok (n : ℤ)
    | none => Except.error PyError.ValueError

/-- parse_bwa_flagstat (flagstat.py lines 9 to 20), taking the lists of
digit strings captured by re.findall for the paired-in-sequencing and the
with-itself-and-mate-mapped patterns. Indexing an empty findall result
raises IndexError; int() of a bad capture raises ValueError; the percent
computation divides by the total with no zero guard, so a zero total
raises ZeroDivisionError. Evaluation order follows the source: index and
convert the total first, then the mapped count, then divide. -/
def parse_bwa_flagstat (totalMatches mappedMatches : List String) :
    Except PyError (ℤ × ℚ) :=
  match totalMatches with
  | [] => Except.error PyError.IndexError
  | t0 :: _ =>
    match pyInt t0 with
    | Except.error e => Except.error e
    | Except.ok total_reads =>
      match mappedMatches with
      | [] => Except.error PyError.IndexError
      | m0 :: _ =>
        match pyInt m0 with
        | Except.error e => Except.error e
        | Except.ok total_mapped =>
          if total_reads = 0 then Except.error PyError.ZeroDivisionError
          else Except.ok (total_reads, ((total_mapped : ℚ) / (total_reads : ℚ)) * 100)

/-- FlagstatProcessor._parse_flagstat (flagstat_processor.py lines 51 to
79), on the same findall model: an absent pattern raises
DataProcessingError with a descriptive message; int() failures are caught
by the except clause for ValueError and IndexError and re-raised as
DataProcessingError; a zero total short-circuits to percent 0.0 before
any division. -/
def FlagstatProcessor.parse_flagstat (totalMatches mappedMatches : List String) :
    Except PyError (ℤ × ℚ) :=
  match totalMatches, mappedMatches with
  | [], _ =>
    Except.error (PyError.DataProcessingError
      "Could not find paired in sequencing in flagstat file")
  | _ :: _, [] =>
    Except.error (PyError.DataProcessingError
      "Could not find with itself and mate mapped in flagstat file")
  | t0 :: _, m0 :: _ =>
    match pyInt t0 with
    | Except.error _ =>
      Except.error (PyError.DataProcessingError "Error parsing flagstat file")
    | Except.ok total_reads =>
      match pyInt m0 with
      | Except.error _ =>
        Except.error (PyError.DataProcessingError "Error parsing flagstat file")
      | Except.ok total_mapped =>
        if total_reads = 0 then Except.ok (total_reads, 0)
        else Except.ok (total_reads, ((total_mapped : ℚ) / (total_reads : ℚ)) * 100)

/-- Classifies a flagstat parse result as a parse-classified failure: a
DataProcessingError is, every other exception type is not. -/
def isParseFailure : Except PyError (ℤ × ℚ) → Bool
  | Except.error (PyError.DataProcessingError _) => true
  | _ => false

/-! ## BLAST batch driver (processors/blast_processor.py
BlastProcessor.run_blastn lines 36 to 102, and reporthanter/blast.py
run_blastn lines 8 to 37) -/

/-- A contig from the input CSV: its name and sequence columns. -/
structure Contig where
  name : String
  sequence : String
deriving Repr, DecidableEq

/-- The outcome of one external blastn invocation as observed by
subprocess.run with check True and a 300 second timeout: captured
standard output, a TimeoutExpired, or a CalledProcessError for a
non-zero exit status. -/
inductive BlastOutcome where
  | success (stdout : String) : BlastOutcome
  | timeout : BlastOutcome
  | failure (exitCode : ℤ) : BlastOutcome
deriving Repr, DecidableEq

/-- The match string BlastProcessor.run_blastn records for one query
(lines 69 to 83): the stripped stdout on success, and the empty string
both on a timeout and on a non-zero exit status, each caught by its
except clause and logged. -/
def matchOf : BlastOutcome → String
  | BlastOutcome.success out => stripChars out
  | BlastOutcome.timeout => ""
  | BlastOutcome.failure _ => ""

/-- The matches list built by the loop of BlastProcessor.run_blastn: one
entry per input query, in order. -/
def BlastProcessor.matchesOf (contigs : List (Contig × BlastOutcome)) : List String :=
  contigs.map (fun p => matchOf p.2)

/-- BlastProcessor.run_blastn (lines 36 to 102). The returned pair is the
surviving result rows (each query paired with its recorded match text,
rows with an empty match dropped) together with whether the temporary
query file still exists when the call returns. An empty input returns
before any temporary file is created; otherwise
tempfile.NamedTemporaryFile creates the file, the loop reuses it for
every query, and the finally clause unlinks it on every exit path, so
the flag is false on both branches. The later split of the match text
into four typed columns (lines 96 to 100) only adds columns to the
surviving rows and changes no row set. -/
def BlastProcessor.run_blastn (contigs : List (Contig × BlastOutcome)) :
    List (Contig × String) × Bool :=
  if contigs.isEmpty then ([], false)
  else
    (((contigs.map (fun p => (p.1, matchOf p.2))).filter
        (fun p => !(p.2 == ""))), false)

/-- The outcome of one check_output invocation in the legacy driver,
which passes no timeout: captured stdout or a CalledProcessError. -/
inductive LegacyOutcome where
  | success (stdout : String) : LegacyOutcome
  | failure (exitCode : ℤ) : LegacyOutcome
deriving Repr, DecidableEq

/-- The per-contig loop of the legacy run_blastn (blast.py lines 17 to
27), threading whether the temporary query file exists on disk: each
iteration writes the query file (so the file exists from then on), then
calls check_output, which on a non-zero exit status raises
CalledProcessError, aborting the whole batch with the file left behind;
nothing ever removes the file. -/
def legacyLoop :
    List (Contig × LegacyOutcome) → List (Contig × String) → Bool →
      Except PyError (List (Contig × String)) × Bool
  | [], acc, temp => (Except.ok acc, temp)
  | (c, o) :: rest, acc, _ =>
    match o with
    | LegacyOutcome.success out => legacyLoop rest (acc ++ [(c, stripChars out)]) true
    | LegacyOutcome.failure code => (Except.error (PyError.CalledProcessError code), true)

/-- The legacy run_blastn (blast.py lines 8 to 37): empty input returns
at once; otherwise run the loop and, on success, drop rows whose match
text is empty. The boolean tracks whether the temporary query file
exists on disk after the call (initially as given by the caller). -/
def legacy_run_blastn (contigs : List (Contig × LegacyOutcome)) (tempExists : Bool) :
    Except PyError (List (Contig × String)) × Bool :=
  if contigs.isEmpty then (Except.ok [], tempExists)
  else
    match legacyLoop contigs [] tempExists with
    | (Except.ok rows, temp) => (Except.ok (rows.filter (fun p => !(p.2 == ""))), temp)
    | err => err

/-! ## FastP summary extraction (processors/fastp_processor.py
FastpProcessor._extract_statistics lines 47 to 106; the filtering-result
block, lines 77 to 88 and 102 to 105, which the claims concern) -/

/-- The fields of the FastP JSON document consumed by the
filtering-result block: summary.before_filtering.total_reads and the
four counts of filtering_result. A missing JSON key is none. -/
structure FastpData where
  before_total_reads : Option ℤ
  passed_filter_reads : Option ℤ
  low_quality_reads : Option ℤ
  too_many_N_reads : Option ℤ
  too_short_reads : Option ℤ
deriving Repr, DecidableEq

/-- Round a rational to the nearest integer, ties to even: the rounding
Python applies when formatting a float with a fixed number of decimals
(exact on the values arising in the claims). -/
def roundHalfEven (q : ℚ) : ℤ :=
  if q - (⌊q⌋ : ℚ) < 1 / 2 then ⌊q⌋
  else if (1 : ℚ) / 2 < q - (⌊q⌋ : ℚ) then ⌊q⌋ + 1
  else if ⌊q⌋ % 2 = 0 then ⌊q⌋ else ⌊q⌋ + 1

/-- Left-pad a digit string with zeros to the requested width. -/
def padZeros (s : String) (width : ℕ) : String :=
  String.mk (List.replicate (width - s.length) '0') ++ s

/-- Render an integer scaled by ten to the prec as a fixed-point decimal
string with prec digits after the point. -/
def fmtScaled (prec : ℕ) (scaled : ℤ) : String :=
  (if scaled < 0 then "-" else "") ++
    (if prec = 0 then toString scaled.natAbs
     else toString (scaled.natAbs / 10 ^ prec) ++ "." ++
       padZeros (toString (scaled.natAbs % 10 ^ prec)) prec)

/-- Model of the Python fixed-point float format with prec decimals. -/
def fmtFixed (prec : ℕ) (q : ℚ) : String :=
  fmtScaled prec (roundHalfEven (q * (10 : ℚ) ^ prec))

/-- The filtering-result entries of
FastpProcessor._extract_statistics: pre-filter total with default 1 as
the zero-guard denominator, the four outcome counts with default 0,
each rendered as its count (in thousands with one decimal for the first
two, plain for the last two) plus its percentage of the pre-filter
total. -/
def FastpProcessor.filtering_stats (data : FastpData) : List (String × String) :=
  [("reads passed filters",
      fmtFixed 1 ((data.passed_filter_reads.getD 0 : ℚ) / 1000) ++ " K (" ++
        fmtFixed 1 (((data.passed_filter_reads.getD 0 : ℚ) /
          (data.before_total_reads.getD 1 : ℚ)) * 100) ++ "%)"),
   ("reads with low quality",
      fmtFixed 1 ((data.low_quality_reads.getD 0 : ℚ) / 1000) ++ " K (" ++
        fmtFixed 1 (((data.low_quality_reads.getD 0 : ℚ) /
          (data.before_total_reads.getD 1 : ℚ)) * 100) ++ "%)"),
   ("reads with too many N",
      toString (data.too_many_N_reads.getD 0) ++ " (" ++
        fmtFixed 2 (((data.too_many_N_reads.getD 0 : ℚ) /
          (data.before_total_reads.getD 1 : ℚ)) * 100) ++ "%)"),
   ("reads too short",
      toString (data.too_short_reads.getD 0) ++ " (" ++
        fmtFixed 2 (((data.too_short_reads.getD 0 : ℚ) /
          (data.before_total_reads.getD 1 : ℚ)) * 100) ++ "%)")]

/-- The filtering-result entries of the legacy parse_fastp_json
(fastp.py lines 44 to 53 and 68 to 71): the same counts and percentages
against the pre-filter total (default 1 when the key is missing), but
every value rendered with six decimals instead of one or two. -/
def parse_fastp_json_stats (data : FastpData) : List (String × String) :=
  [("reads passed filters",
      fmtFixed 6 ((data.passed_filter_reads.getD 0 : ℚ) / 1000) ++ " K (" ++
        fmtFixed 6 (((data.passed_filter_reads.getD 0 : ℚ) /
          (data.before_total_reads.getD 1 : ℚ)) * 100) ++ "%)"),
   ("reads with low quality",
      fmtFixed 6 ((data.low_quality_reads.getD 0 : ℚ) / 1000) ++ " K (" ++
        fmtFixed 6 (((data.low_quality_reads.getD 0 : ℚ) /
          (data.before_total_reads.getD 1 : ℚ)) * 100) ++ "%)"),
   ("reads with too many N",
      toString (data.too_many_N_reads.getD 0) ++ " (" ++
        fmtFixed 6 (((data.too_many_N_reads.getD 0 : ℚ) /
          (data.before_total_reads.getD 1 : ℚ)) * 100) ++ "%)"),
   ("reads too short",
      toString (data.too_short_reads.getD 0) ++ " (" ++
        fmtFixed 6 (((data.too_short_reads.getD 0 : ℚ) /
          (data.before_total_reads.getD 1 : ℚ)) * 100) ++ "%)")]

/-! ## Helper lemmas: column-wise forward fill -/

theorem findSome?_id_singleton {α : Type} (x : Option α) :
    List.findSome? id [x] = x := by
  cases x <;> rfl

theorem lastObserved_cons_zero {α : Type} (x : Option α) (xs : List (Option α)) :
    lastObserved (x :: xs) 0 = x := by
  unfold lastObserved
  rw [List.take_succ_cons, List.take_zero, List.reverse_cons, List.reverse_nil,
    List.nil_append, findSome?_id_singleton]

theorem lastObserved_cons_succ {α : Type} (x : Option α) (xs : List (Option α)) (i : ℕ) :
    lastObserved (x :: xs) (i + 1) = (lastObserved xs i).or x := by
  unfold lastObserved
  rw [List.take_succ_cons, List.reverse_cons, List.findSome?_append, findSome?_id_singleton]

theorem locfCarry_getElem {α : Type} (xs : List (Option α)) :
    ∀ (c : Option α) (i : ℕ), i < xs.length →
      (locfCarry c xs)[i]? = some ((lastObserved xs i).or c) := by
  induction xs with
  | nil => intro c i h; simp at h
  | cons x xs ih =>
    intro c i h
    cases i with
    | zero =>
      simp [locfCarry, lastObserved_cons_zero]
    | succ n =>
      have hn : n < xs.length := by simpa using h
      simp only [locfCarry, List.getElem?_cons_succ]
      rw [ih (x.or c) n hn, lastObserved_cons_succ, Option.or_assoc]

theorem ffillRows_map {γ : Type} (f : KrakenRow → Option γ)
    (hf : ∀ c r, f (ffillStep c r) = (f r).or (f c)) :
    ∀ (carry : KrakenRow) (rows : List KrakenRow),
      (ffillRows carry rows).map f = locfCarry (f carry) (rows.map f) := by
  intro carry rows
  induction rows generalizing carry with
  | nil => rfl
  | cons r rs ih =>
    simp only [ffillRows, List.map_cons, locfCarry]
    rw [ih (ffillStep carry r), hf]

theorem wrangle_kraken_col {γ : Type} (f : KrakenRow → Option γ)
    (hf : ∀ c r, f (ffillStep c r) = (f r).or (f c)) (hempty : f emptyKrakenRow = none)
    (rows : List KrakenRawRow) (i : ℕ) (h : i < rows.length) :
    ((wrangle_kraken rows)[i]?).map f =
      some (lastObserved ((rows.map assignRow).map f) i) := by
  have hm : (wrangle_kraken rows).map f = locfCarry none ((rows.map assignRow).map f) := by
    rw [wrangle_kraken, ffillRows_map f hf, hempty]
  have hlen : i < ((rows.map assignRow).map f).length := by simpa using h
  calc ((wrangle_kraken rows)[i]?).map f
      = ((wrangle_kraken rows).map f)[i]? := (List.getElem?_map f _ i).symm
    _ = (locfCarry none ((rows.map assignRow).map f))[i]? := by rw [hm]
    _ = some ((lastObserved ((rows.map assignRow).map f) i).or none) :=
        locfCarry_getElem _ none i hlen
    _ = some (lastObserved ((rows.map assignRow).map f) i) := by rw [Option.or_none]

theorem lastObserved_of_none {α : Type} {xs : List (Option α)} {i : ℕ}
    (h : xs[i]? = some none) :
    lastObserved xs i = ((xs.take i).reverse).findSome? id := by
  unfold lastObserved
  rw [List.take_succ, h]
  simp [List.reverse_append, List.findSome?_append, List.findSome?_cons]

theorem findSome?_guard_eq_find?_bind {β γ : Type} (p : β → Bool) (f : β → Option γ) :
    ∀ l : List β, (∀ x ∈ l, p x = true → (f x).isSome = true) →
      l.findSome? (fun x => if p x then f x else none) = (l.find? p).bind f := by
  intro l
  induction l with
  | nil => intro _; rfl
  | cons x xs ih =>
    intro h
    by_cases hp : p x = true
    · have hs : (f x).isSome = true := h x (by simp) hp
      obtain ⟨v, hv⟩ := Option.isSome_iff_exists.mp hs
      simp [List.findSome?_cons, List.find?_cons, hp, hv]
    · have hp' : p x = false := by simpa using hp
      simp only [List.findSome?_cons, List.find?_cons, hp']
      exact ih (fun y hy => h y (by simp [hy]))

/-- Claim C2: in a wrangled Kraken table, a row whose rank code is not
D, U or R gets as domain the stripped name of the nearest preceding row
whose rank code is D, U or R, and a row with no such predecessor keeps
its domain unset (the bind of find? over the reversed prefix yields
exactly that: the name of the nearest preceding D, U or R row when one
exists, none otherwise). Stated for tables whose name column is fully
present, as in any well-formed Kraken report. -/
theorem claim_C2_domain_forward_fill (rows : List KrakenRawRow) (i : ℕ) (r : KrakenRawRow)
    (hr : rows[i]? = some r) (hdur : isDUR r.tax_lvl = false)
    (hnames : ∀ q ∈ rows, (KrakenRawRow.name q).isSome = true) :
    ((wrangle_kraken rows)[i]?).map KrakenRow.domain =
      some ((((rows.take i).reverse).find? (fun q => isDUR q.tax_lvl)).bind
        (fun q => q.name.map stripChars)) := by
  have hi : i < rows.length := by
    rcases List.getElem?_eq_some.mp hr with ⟨h, _⟩
    exact h
  have hcol : (rows.map assignRow).map KrakenRow.domain
      = rows.map (fun q => if isDUR q.tax_lvl then q.name.map stripChars else none) := by
    rw [List.map_map]
    rfl
  rw [wrangle_kraken_col KrakenRow.domain (fun _ _ => rfl) rfl rows i hi, hcol]
  have hati : (rows.map
      (fun q => if isDUR q.tax_lvl then q.name.map stripChars else none))[i]? = some none := by
    rw [List.getElem?_map, hr]
    simp [hdur]
  rw [lastObserved_of_none hati, ← List.map_take, ← List.map_reverse,
    List.findSome?_map]
  have hguard : ∀ x ∈ (rows.take i).reverse, isDUR x.tax_lvl = true →
      ((fun q : KrakenRawRow => q.name.map stripChars) x).isSome = true := by
    intro x hx _
    have hxr : x ∈ rows := List.mem_of_mem_take (List.mem_reverse.mp hx)
    simpa [Option.isSome_map] using hnames x hxr
  rw [Function.id_comp]
  exact congrArg some (findSome?_guard_eq_find?_bind _ _ _ hguard)

/-- Claim C10: the forward fill of Kraken wrangling applies to the whole
table, so for every one of the seven columns the wrangled value at any
row index equals the most recent non-missing value of that column at or
before the index (in particular, a missing input cell is silently
inherited from the nearest earlier row of the same column). -/
theorem claim_C10_ffill_whole_table (rows : List KrakenRawRow) (i : ℕ) (h : i < rows.length) :
    ((wrangle_kraken rows)[i]?).map KrakenRow.percent
        = some (lastObserved ((rows.map assignRow).map KrakenRow.percent) i)
    ∧ ((wrangle_kraken rows)[i]?).map KrakenRow.count_clades
        = some (lastObserved ((rows.map assignRow).map KrakenRow.count_clades) i)
    ∧ ((wrangle_kraken rows)[i]?).map KrakenRow.count
        = some (lastObserved ((rows.map assignRow).map KrakenRow.count) i)
    ∧ ((wrangle_kraken rows)[i]?).map KrakenRow.tax_lvl
        = some (lastObserved ((rows.map assignRow).map KrakenRow.tax_lvl) i)
    ∧ ((wrangle_kraken rows)[i]?).map KrakenRow.taxonomy_id
        = some (lastObserved ((rows.map assignRow).map KrakenRow.taxonomy_id) i)
    ∧ ((wrangle_kraken rows)[i]?).map KrakenRow.name
        = some (lastObserved ((rows.map assignRow).map KrakenRow.name) i)
    ∧ ((wrangle_kraken rows)[i]?).map KrakenRow.domain
        = some (lastObserved ((rows.map assignRow).map KrakenRow.domain) i) :=
  ⟨wrangle_kraken_col KrakenRow.percent (fun _ _ => rfl) rfl rows i h,
   wrangle_kraken_col KrakenRow.count_clades (fun _ _ => rfl) rfl rows i h,
   wrangle_kraken_col KrakenRow.count (fun _ _ => rfl) rfl rows i h,
   wrangle_kraken_col KrakenRow.tax_lvl (fun _ _ => rfl) rfl rows i h,
   wrangle_kraken_col KrakenRow.taxonomy_id (fun _ _ => rfl) rfl rows i h,
   wrangle_kraken_col KrakenRow.name (fun _ _ => rfl) rfl rows i h,
   wrangle_kraken_col KrakenRow.domain (fun _ _ => rfl) rfl rows i h⟩

/-! ## Helper lemmas: the descending sort order and the filter chains -/

theorem percentLe_trans (a b c : Option ℚ) (hab : percentLe a b = true)
    (hbc : percentLe b c = true) : percentLe a c = true := by
  cases a <;> cases b <;> cases c <;> simp_all [percentLe]
  exact le_trans hbc hab

theorem percentLe_total (a b : Option ℚ) :
    (percentLe a b || percentLe b a) = true := by
  cases a <;> cases b <;> simp [percentLe]
  exact le_total _ _

theorem pairwise_mergeSort_percentLe {X : Type} (key : X → Option ℚ) (l : List X) :
    (l.mergeSort (fun a b => percentLe (key a) (key b))).Pairwise
      (fun a b => percentLe (key a) (key b) = true) := by
  apply List.sorted_mergeSort
  · intro a b c hab hbc
    exact percentLe_trans _ _ _ hab hbc
  · intro a b
    exact percentLe_total _ _

theorem length_take_le {X : Type} (l : List X) (m : ℕ) : (l.take m).length ≤ m := by
  simp [List.length_take]

theorem kaijuFilterPipeline_props (rows : List KaijuRow) (cutoff : ℚ) (max_entries : ℕ) :
    (kaijuFilterPipeline rows cutoff max_entries).length ≤ max_entries
    ∧ (∀ r ∈ kaijuFilterPipeline rows cutoff max_entries, optGtQ r.percent cutoff = true)
    ∧ (kaijuFilterPipeline rows cutoff max_entries).Pairwise
        (fun a b => percentLe a.percent b.percent = true) := by
  refine ⟨length_take_le _ _, ?_, ?_⟩
  · intro r hr
    have h1 := List.mem_of_mem_take hr
    exact (List.mem_filter.mp h1).2
  · have hsorted := pairwise_mergeSort_percentLe (fun r : KaijuRow => r.percent) rows
    have hsub : (kaijuFilterPipeline rows cutoff max_entries).Sublist
        (rows.mergeSort (fun a b => percentLe a.percent b.percent)) := by
      unfold kaijuFilterPipeline
      exact ((List.take_sublist _ _).trans (List.filter_sublist _)).trans
        (List.filter_sublist _)
    exact hsorted.sublist hsub

theorem krakenFilterPipeline_props (df : List KrakenRow) (code : String) (cutoff : ℚ)
    (max_entries : ℕ) (virus_only : Bool) :
    (krakenFilterPipeline df code cutoff max_entries virus_only).length ≤ max_entries
    ∧ (∀ r ∈ krakenFilterPipeline df code cutoff max_entries virus_only,
        optGtQ r.percent cutoff = true)
    ∧ (krakenFilterPipeline df code cutoff max_entries virus_only).Pairwise
        (fun a b => percentLe a.percent b.percent = true) := by
  have hsorted := pairwise_mergeSort_percentLe (fun r : KrakenRow => r.percent)
    ((df.filter (fun r => r.tax_lvl == some code)).filter (fun r => optGtQ r.percent cutoff))
  have hperm := List.mergeSort_perm
    ((df.filter (fun r => r.tax_lvl == some code)).filter (fun r => optGtQ r.percent cutoff))
    (fun a b : KrakenRow => percentLe a.percent b.percent)
  cases virus_only with
  | true =>
    have e : krakenFilterPipeline df code cutoff max_entries true
        = ((((df.filter (fun r => r.tax_lvl == some code)).filter
            (fun r => optGtQ r.percent cutoff)).mergeSort
            (fun a b => percentLe a.percent b.percent)).filter
            (fun r => r.domain == some "Viruses")).take max_entries := rfl
    rw [e]
    refine ⟨length_take_le _ _, ?_, ?_⟩
    · intro r hr
      have h1 := (List.mem_filter.mp (List.mem_of_mem_take hr)).1
      exact (List.mem_filter.mp (hperm.mem_iff.mp h1)).2
    · exact hsorted.sublist ((List.take_sublist _ _).trans (List.filter_sublist _))
  | false =>
    have e : krakenFilterPipeline df code cutoff max_entries false
        = (((df.filter (fun r => r.tax_lvl == some code)).filter
            (fun r => optGtQ r.percent cutoff)).mergeSort
            (fun a b => percentLe a.percent b.percent)).take max_entries := rfl
    rw [e]
    refine ⟨length_take_le _ _, ?_, ?_⟩
    · intro r hr
      exact (List.mem_filter.mp (hperm.mem_iff.mp (List.mem_of_mem_take hr))).2
    · exact hsorted.sublist (List.take_sublist _ _)

/-- Claim C1: every Kraken or Kaiju filtering operation (kraken_df,
KaijuProcessor.filter_data, and the filter block of plot_kaiju) returns
at most max_entries rows, every returned row has a present fraction
strictly greater than the cutoff, and the returned rows are ordered by
the descending-fraction relation of the sort. -/
theorem claim_C1_filter_bounds :
    (∀ (rows : List KrakenRawRow) (level : String) (cutoff : ℚ) (max_entries : ℕ)
        (virus_only : Bool) (res : List KrakenRow) (uncl : Option ℚ),
        kraken_df rows level cutoff max_entries virus_only = Except.ok (res, uncl) →
        res.length ≤ max_entries
        ∧ (∀ r ∈ res, optGtQ r.percent cutoff = true)
        ∧ res.Pairwise (fun a b => percentLe a.percent b.percent = true))
    ∧ (∀ (t : KaijuTable) (cutoff : ℚ) (max_entries : ℕ),
        (KaijuProcessor.filter_data t cutoff max_entries).1.length ≤ max_entries
        ∧ (∀ r ∈ (KaijuProcessor.filter_data t cutoff max_entries).1,
            optGtQ r.percent cutoff = true)
        ∧ (KaijuProcessor.filter_data t cutoff max_entries).1.Pairwise
            (fun a b => percentLe a.percent b.percent = true))
    ∧ (∀ (t : KaijuTable) (cutoff : ℚ) (max_entries : ℕ) (res : List KaijuRow),
        plot_kaiju_filter t cutoff max_entries = Except.ok res →
        res.length ≤ max_entries
        ∧ (∀ r ∈ res, optGtQ r.percent cutoff = true)
        ∧ res.Pairwise (fun a b => percentLe a.percent b.percent = true)) := by
  refine ⟨?_, ?_, ?_⟩
  · intro rows level cutoff max_entries virus_only res uncl h
    cases htax : taxonomyCode level with
    | none => simp [kraken_df, htax] at h
    | some code =>
      have hres : res = krakenFilterPipeline (kraken_df_table rows) code cutoff
          max_entries virus_only := by
        simp [kraken_df, htax] at h
        exact h.1.symm
      rw [hres]
      exact krakenFilterPipeline_props _ _ _ _ _
  · intro t cutoff max_entries
    exact kaijuFilterPipeline_props t.rows cutoff max_entries
  · intro t cutoff max_entries res h
    cases hcol : t.hasFileCol with
    | false => simp [plot_kaiju_filter, hcol] at h
    | true =>
      have hres : res = kaijuFilterPipeline t.rows cutoff max_entries := by
        simp [plot_kaiju_filter, hcol] at h
        exact h.symm
      rw [hres]
      exact kaijuFilterPipeline_props t.rows cutoff max_entries

/-- Claim C7 (amended): KaijuProcessor.filter_data drops the file column
with errors ignore, so on a table without that column it still succeeds
and returns the sorted, cutoff-filtered, truncated rows; the filter
block of plot_kaiju instead drops the column unconditionally and raises
KeyError on such a table. -/
theorem claim_C7_amended (rows : List KaijuRow) (cutoff : ℚ) (max_entries : ℕ) :
    (KaijuProcessor.filter_data ⟨false, rows⟩ cutoff max_entries).1
        = kaijuFilterPipeline rows cutoff max_entries
    ∧ (KaijuProcessor.filter_data ⟨false, rows⟩ cutoff max_entries).1.length ≤ max_entries
    ∧ plot_kaiju_filter ⟨false, rows⟩ cutoff max_entries = Except.error "KeyError: file" :=
  ⟨rfl, (kaijuFilterPipeline_props rows cutoff max_entries).1, rfl⟩

/-- Claim C8: all three unclassified-fraction extractions (kraken_df,
plot_kaiju, KaijuProcessor.filter_data) return 0 rather than failing
when no unclassified row exists. -/
theorem claim_C8_unclassified_zero :
    (∀ df : List KrakenRow, (∀ r ∈ df, (r.domain == some "unclassified") = false) →
        kraken_unclassified df = some 0)
    ∧ (∀ rows : List KaijuRow, (∀ r ∈ rows, isUnclassifiedKaiju r = false) →
        kaiju_unclassified_plot rows = some 0)
    ∧ (∀ (t : KaijuTable) (cutoff : ℚ) (max_entries : ℕ),
        (∀ r ∈ t.rows, isUnclassifiedKaiju r = false) →
        (KaijuProcessor.filter_data t cutoff max_entries).2 = some 0) := by
  refine ⟨?_, ?_, ?_⟩
  · intro df h
    have hnil : df.filter (fun r => r.domain == some "unclassified") = [] := by
      rw [List.filter_eq_nil_iff]
      intro a ha
      simp [h a ha]
    unfold kraken_unclassified
    rw [hnil]
  · intro rows h
    have hnil : rows.filter isUnclassifiedKaiju = [] := by
      rw [List.filter_eq_nil_iff]
      intro a ha
      simp [h a ha]
    unfold kaiju_unclassified_plot
    rw [hnil]
  · intro t cutoff max_entries h
    have hnil : t.rows.filter isUnclassifiedKaiju = [] := by
      rw [List.filter_eq_nil_iff]
      intro a ha
      simp [h a ha]
    show KaijuProcessor.unclassified_pct t.rows = some 0
    unfold KaijuProcessor.unclassified_pct
    rw [hnil]

/-! ## Flagstat claims -/

/-- Claim C3 counterexample: on flagstat text whose two patterns match
with a total of 0 (both findall captures are the digit string 0), the
legacy parse_bwa_flagstat raises ZeroDivisionError instead of returning
a percent of 0, because it divides with no zero guard. -/
theorem claim_C3_counterexample :
    parse_bwa_flagstat ["0"] ["0"] = Except.error PyError.ZeroDivisionError := by
  rfl

/-- Claim C3 (amended): FlagstatProcessor._parse_flagstat returns total
0 with percent mapped 0 and raises nothing when both patterns match and
the captured total is 0; the legacy parse_bwa_flagstat instead raises
ZeroDivisionError on the same input (see the counterexample). -/
theorem claim_C3_amended (totalMatches mappedMatches : List String)
    (t0 m0 : String) (tr mr : List String) (k : ℤ)
    (hts : totalMatches = t0 :: tr) (hms : mappedMatches = m0 :: mr)
    (h0 : pyInt t0 = Except.ok 0) (hk : pyInt m0 = Except.ok k) :
    FlagstatProcessor.parse_flagstat totalMatches mappedMatches = Except.ok (0, 0) := by
  subst hts hms
  simp only [FlagstatProcessor.parse_flagstat]
  rw [h0, hk]
  rfl

/-- Witness for claim C3: the amended theorem applied at the concrete
captures 0 and 7. -/
theorem claim_C3_witness :
    pyInt "0" = Except.ok 0
    ∧ FlagstatProcessor.parse_flagstat ["0"] ["7"] = Except.ok (0, 0) :=
  ⟨by rfl, claim_C3_amended ["0"] ["7"] "0" "7" [] [] 7 rfl rfl (by rfl) (by rfl)⟩

/-- Claim C6 counterexample: on flagstat text where the
paired-in-sequencing pattern has no match, the legacy parse_bwa_flagstat
fails with IndexError (indexing an empty findall result), which is not a
parse-classified error. -/
theorem claim_C6_counterexample :
    parse_bwa_flagstat [] ["5"] = Except.error PyError.IndexError
    ∧ isParseFailure (parse_bwa_flagstat [] ["5"]) = false := by
  exact ⟨rfl, rfl⟩

/-- Claim C6 (amended): FlagstatProcessor._parse_flagstat fails with the
parse-classified DataProcessingError whenever either pattern has no
match; the legacy parse_bwa_flagstat instead escapes with a bare
IndexError (see the counterexample). -/
theorem claim_C6_amended (totalMatches mappedMatches : List String)
    (h : totalMatches = [] ∨ mappedMatches = []) :
    isParseFailure (FlagstatProcessor.parse_flagstat totalMatches mappedMatches) = true := by
  rcases h with h | h
  · subst h
    rfl
  · subst h
    cases totalMatches with
    | nil => rfl
    | cons t ts => rfl

/-- Witness for claim C6: the amended theorem applied with both match
lists empty. -/
theorem claim_C6_witness :
    isParseFailure (FlagstatProcessor.parse_flagstat [] []) = true :=
  claim_C6_amended [] [] (Or.inl rfl)

/-! ## BLAST claims -/

/-- Claim C4 counterexample: in the legacy run_blastn a query whose
invocation exits with a non-zero status aborts the whole batch with
CalledProcessError; the later successful query is never processed and
no result at all is returned. -/
theorem claim_C4_counterexample :
    legacy_run_blastn
      [(⟨"contig1", "ACGT"⟩, LegacyOutcome.failure 2),
       (⟨"contig2", "GGCC"⟩, LegacyOutcome.success "virus_hit\tMN908947\t99.5\t29903")]
      false
    = (Except.error (PyError.CalledProcessError 2), true) := by
  rfl

/-- Claim C4 (amended): in BlastProcessor.run_blastn a per-query timeout
or non-zero exit status is recorded as an empty match, every query of
the batch receives a recorded match (the batch never aborts), and no
row of the final output carries an empty match, so a failed query
contributes zero rows; the legacy run_blastn instead aborts the batch on
a non-zero exit status (see the counterexample). -/
theorem claim_C4_amended (contigs : List (Contig × BlastOutcome)) :
    (BlastProcessor.matchesOf contigs).length = contigs.length
    ∧ (∀ c o, (c, o) ∈ contigs →
        (o = BlastOutcome.timeout ∨ ∃ k, o = BlastOutcome.failure k) → matchOf o = "")
    ∧ (∀ p ∈ (BlastProcessor.run_blastn contigs).1, ¬p.2 = "") := by
  refine ⟨List.length_map _ _, ?_, ?_⟩
  · intro c o _ ho
    rcases ho with h | ⟨k, h⟩ <;> subst h <;> rfl
  · intro p hp
    cases hempty : contigs.isEmpty with
    | true =>
      rw [BlastProcessor.run_blastn, if_pos hempty] at hp
      simp at hp
    | false =>
      rw [BlastProcessor.run_blastn, if_neg (by simp [hempty])] at hp
      have := (List.mem_filter.mp hp).2
      simpa using this

/-- Witness for claim C4: the amended theorem applied to a concrete
two-query batch whose first query times out. -/
theorem claim_C4_witness :
    (BlastProcessor.matchesOf
        [(⟨"contig1", "ACGT"⟩, BlastOutcome.timeout),
         (⟨"contig2", "GGCC"⟩, BlastOutcome.success "hit\tacc\t99.0\t100")]).length = 2
    ∧ matchOf BlastOutcome.timeout = "" :=
  ⟨(claim_C4_amended _).1,
   (claim_C4_amended
      [(⟨"contig1", "ACGT"⟩, BlastOutcome.timeout),
       (⟨"contig2", "GGCC"⟩, BlastOutcome.success "hit\tacc\t99.0\t100")]).2.1
     ⟨"contig1", "ACGT"⟩ BlastOutcome.timeout (by simp) (Or.inl rfl)⟩

/-- Claim C5 counterexample: the legacy run_blastn writes the per-query
input file and never removes it, so even a fully successful batch
returns with the file still on disk. -/
theorem claim_C5_counterexample :
    legacy_run_blastn
      [(⟨"contig1", "ACGT"⟩, LegacyOutcome.success "virus_hit\tMN908947\t99.5\t29903")]
      false
    = (Except.ok [(⟨"contig1", "ACGT"⟩, "virus_hit\tMN908947\t99.5\t29903")], true) := by
  rfl

/-- Claim C5 (amended): BlastProcessor.run_blastn removes its temporary
query file on every exit path, so the file never survives the call; the
legacy run_blastn leaves the written query file on disk after every
non-empty batch, successful or aborted (see the counterexample). -/
theorem claim_C5_amended :
    (∀ contigs : List (Contig × BlastOutcome),
      (BlastProcessor.run_blastn contigs).2 = false)
    ∧ (∀ (contigs : List (Contig × LegacyOutcome)) (tempExists : Bool),
        ¬contigs = [] → (legacy_run_blastn contigs tempExists).2 = true) := by
  constructor
  · intro contigs
    cases hempty : contigs.isEmpty with
    | true => rw [BlastProcessor.run_blastn, if_pos hempty]
    | false => rw [BlastProcessor.run_blastn, if_neg (by simp [hempty])]
  · have hloop : ∀ (l : List (Contig × LegacyOutcome)) (acc : List (Contig × String)),
        (legacyLoop l acc true).2 = true := by
      intro l
      induction l with
      | nil => intro acc; rfl
      | cons p rest ih =>
        intro acc
        obtain ⟨c, o⟩ := p
        cases o with
        | success out => exact ih (acc ++ [(c, stripChars out)])
        | failure code => rfl
    intro contigs tempExists hne
    cases contigs with
    | nil => exact absurd rfl hne
    | cons p rest =>
      obtain ⟨c, o⟩ := p
      rw [legacy_run_blastn, if_neg (by simp)]
      cases o with
      | success out =>
        have h2 : (legacyLoop ((c, LegacyOutcome.success out) :: rest) [] tempExists).2
            = true := by
          show (legacyLoop rest ([] ++ [(c, stripChars out)]) true).2 = true
          exact hloop rest _
        rcases hsplit : legacyLoop ((c, LegacyOutcome.success out) :: rest) [] tempExists with
          ⟨res, temp⟩
        rw [hsplit] at h2
        cases res with
        | ok rows => simpa using h2
        | error e => simpa using h2
      | failure code => rfl

/-- Witness for claim C5: the amended theorem applied to the empty
processor batch and to a concrete one-query legacy batch. -/
theorem claim_C5_witness :
    (BlastProcessor.run_blastn []).2 = false
    ∧ (legacy_run_blastn [(⟨"contig1", "ACGT"⟩, LegacyOutcome.success "hit")] false).2 = true :=
  ⟨claim_C5_amended.1 [],
   claim_C5_amended.2 [(⟨"contig1", "ACGT"⟩, LegacyOutcome.success "hit")] false (by simp)⟩

/-! ## FastP claim -/

theorem lookup_cons_self {β : Type} (k : String) (v : β) (rest : List (String × β)) :
    List.lookup k ((k, v) :: rest) = some v := by
  simp [List.lookup]

theorem fmtFixed_fastp_count_one : fmtFixed 1 (((900 : ℤ) : ℚ) / 1000) = "0.9" := by
  have e : (((900 : ℤ) : ℚ) / 1000) * (10 : ℚ) ^ (1 : ℕ) = 9 := by norm_num
  have hr : roundHalfEven (9 : ℚ) = 9 := by
    unfold roundHalfEven
    have hf : ⌊(9 : ℚ)⌋ = 9 := by norm_num
    rw [hf]
    norm_num
  simp only [fmtFixed]
  rw [e, hr]
  decide

theorem fmtFixed_fastp_pct_one :
    fmtFixed 1 ((((900 : ℤ) : ℚ) / ((1000 : ℤ) : ℚ)) * 100) = "90.0" := by
  have e : ((((900 : ℤ) : ℚ) / ((1000 : ℤ) : ℚ)) * 100) * (10 : ℚ) ^ (1 : ℕ) = 900 := by
    norm_num
  have hr : roundHalfEven (900 : ℚ) = 900 := by
    unfold roundHalfEven
    have hf : ⌊(900 : ℚ)⌋ = 900 := by norm_num
    rw [hf]
    norm_num
  simp only [fmtFixed]
  rw [e, hr]
  decide

theorem fmtFixed_fastp_count_six : fmtFixed 6 (((900 : ℤ) : ℚ) / 1000) = "0.900000" := by
  have e : (((900 : ℤ) : ℚ) / 1000) * (10 : ℚ) ^ (6 : ℕ) = 900000 := by norm_num
  have hr : roundHalfEven (900000 : ℚ) = 900000 := by
    unfold roundHalfEven
    have hf : ⌊(900000 : ℚ)⌋ = 900000 := by norm_num
    rw [hf]
    norm_num
  simp only [fmtFixed]
  rw [e, hr]
  decide

theorem fmtFixed_fastp_pct_six :
    fmtFixed 6 ((((900 : ℤ) : ℚ) / ((1000 : ℤ) : ℚ)) * 100) = "90.000000" := by
  have e : ((((900 : ℤ) : ℚ) / ((1000 : ℤ) : ℚ)) * 100) * (10 : ℚ) ^ (6 : ℕ)
      = 90000000 := by
    norm_num
  have hr : roundHalfEven (90000000 : ℚ) = 90000000 := by
    unfold roundHalfEven
    have hf : ⌊(90000000 : ℚ)⌋ = 90000000 := by norm_num
    rw [hf]
    norm_num
  simp only [fmtFixed]
  rw [e, hr]
  decide

/-- Claim C9 counterexample: on the FastP input with a pre-filter total
of 1000 reads and 900 passed reads, the legacy parse_fastp_json renders
the reads-passed-filters metric with six decimals, as
0.900000 K (90.000000%), which is not the claimed string 0.9 K (90.0%). -/
theorem claim_C9_counterexample :
    (parse_fastp_json_stats ⟨some 1000, some 900, some 50, some 3, some 47⟩).lookup
        "reads passed filters" = some "0.900000 K (90.000000%)"
    ∧ ¬(parse_fastp_json_stats ⟨some 1000, some 900, some 50, some 3, some 47⟩).lookup
        "reads passed filters" = some "0.9 K (90.0%)" := by
  have h1 : (⟨some 1000, some 900, some 50, some 3, some 47⟩ : FastpData).before_total_reads
      = some 1000 := rfl
  have h2 : (⟨some 1000, some 900, some 50, some 3, some 47⟩ : FastpData).passed_filter_reads
      = some 900 := rfl
  have h : (parse_fastp_json_stats ⟨some 1000, some 900, some 50, some 3, some 47⟩).lookup
      "reads passed filters" = some "0.900000 K (90.000000%)" := by
    simp only [parse_fastp_json_stats, h1, h2, Option.getD_some]
    rw [fmtFixed_fastp_count_six, fmtFixed_fastp_pct_six]
    have hs : ("0.900000" ++ " K (" ++ "90.000000" ++ "%)")
        = "0.900000 K (90.000000%)" := by decide
    rw [hs]
    exact lookup_cons_self _ _ _
  refine ⟨h, ?_⟩
  rw [h]
  decide

/-- Claim C9 (amended): with a pre-filter total of 1000 reads and 900
reads passing the filters, FastpProcessor._extract_statistics renders
the reads-passed-filters metric as 0.9 K (90.0%) (count in thousands
plus its percentage of the pre-filter total, with the getD 1 of the
definition substituting 1 as the denominator when the pre-filter total
is missing); the legacy parse_fastp_json renders the same values at six
decimals, 0.900000 K (90.000000%), not the claimed string (see the
counterexample). -/
theorem claim_C9_fastp_reads_passed :
    (∀ data : FastpData, data.before_total_reads = some 1000 →
        data.passed_filter_reads = some 900 →
        (FastpProcessor.filtering_stats data).lookup "reads passed filters"
          = some "0.9 K (90.0%)")
    ∧ (∀ data : FastpData, data.before_total_reads = some 1000 →
        data.passed_filter_reads = some 900 →
        (parse_fastp_json_stats data).lookup "reads passed filters"
          = some "0.900000 K (90.000000%)") := by
  constructor
  · intro data h1 h2
    simp only [FastpProcessor.filtering_stats, h1, h2, Option.getD_some]
    rw [fmtFixed_fastp_count_one, fmtFixed_fastp_pct_one]
    have hs : ("0.9" ++ " K (" ++ "90.0" ++ "%)") = "0.9 K (90.0%)" := by decide
    rw [hs]
    exact lookup_cons_self _ _ _
  · intro data h1 h2
    simp only [parse_fastp_json_stats, h1, h2, Option.getD_some]
    rw [fmtFixed_fastp_count_six, fmtFixed_fastp_pct_six]
    have hs : ("0.900000" ++ " K (" ++ "90.000000" ++ "%)")
        = "0.900000 K (90.000000%)" := by decide
    rw [hs]
    exact lookup_cons_self _ _ _

/-- Witness for claim C9: both renderers applied to a concrete FastP
document with a pre-filter total of 1000 and 900 passed reads. -/
theorem claim_C9_witness :
    (FastpProcessor.filtering_stats
        ⟨some 1000, some 900, some 50, some 3, some 47⟩).lookup "reads passed filters"
      = some "0.9 K (90.0%)"
    ∧ (parse_fastp_json_stats
        ⟨some 1000, some 900, some 50, some 3, some 47⟩).lookup "reads passed filters"
      = some "0.900000 K (90.000000%)" :=
  ⟨claim_C9_fastp_reads_passed.1 ⟨some 1000, some 900, some 50, some 3, some 47⟩ rfl rfl,
   claim_C9_fastp_reads_passed.2 ⟨some 1000, some 900, some 50, some 3, some 47⟩ rfl rfl⟩

/-! ## Remaining witnesses and counterexamples -/

/-- Witness for claim C1: the filter bounds at concrete empty tables,
with the Except hypotheses discharged by evaluation. -/
theorem claim_C1_witness :
    kraken_df [] "species" 0 5 true = Except.ok ([], some 0)
    ∧ ([] : List KrakenRow).length ≤ 5
    ∧ plot_kaiju_filter ⟨true, []⟩ 0 3 = Except.ok []
    ∧ ([] : List KaijuRow).length ≤ 3 := by
  have ht : taxonomyCode "species" = some "S" := by decide
  have hk : kraken_df [] "species" 0 5 true = Except.ok ([], some 0) := by
    simp [kraken_df, ht, kraken_df_table, wrangle_kraken, ffillRows, kraken_unclassified,
      krakenFilterPipeline, List.mergeSort_nil]
  have hp : plot_kaiju_filter ⟨true, ([] : List KaijuRow)⟩ 0 3 = Except.ok [] := by
    simp [plot_kaiju_filter, kaijuFilterPipeline, List.mergeSort_nil]
  exact ⟨hk, (claim_C1_filter_bounds.1 [] "species" 0 5 true [] (some 0) hk).1,
    hp, (claim_C1_filter_bounds.2.2 ⟨true, []⟩ 0 3 [] hp).1⟩

/-- Witness for claim C2: in a concrete two-row table (a domain row
named Viruses followed by a species row), the species row inherits the
domain Viruses from the nearest preceding D row. -/
theorem claim_C2_witness :
    isDUR (some "S") = false
    ∧ ((wrangle_kraken
        [⟨none, some 100, some 50, some "D", some 10239, some "Viruses"⟩,
         ⟨none, some 50, some 25, some "S", some 2697049, some "Virus X"⟩])[1]?).map
        KrakenRow.domain = some (some "Viruses") := by
  refine ⟨by decide, ?_⟩
  have h := claim_C2_domain_forward_fill
    [⟨none, some 100, some 50, some "D", some 10239, some "Viruses"⟩,
     ⟨none, some 50, some 25, some "S", some 2697049, some "Virus X"⟩]
    1 ⟨none, some 50, some 25, some "S", some 2697049, some "Virus X"⟩
    (by rfl) (by decide) (by decide)
  rw [h]
  decide

/-- Counterexample for claim C7: the filter block of plot_kaiju fails
with KeyError on a concrete Kaiju table that has no file column, instead
of succeeding as the claim states. -/
theorem claim_C7_counterexample :
    plot_kaiju_filter ⟨false, [⟨none, some "Virus X", some 5⟩]⟩ 0 10
      = Except.error "KeyError: file" := by
  rfl

/-- Witness for claim C8: the three extractions at concrete tables with
no unclassified row. -/
theorem claim_C8_witness :
    kraken_unclassified
        [⟨none, some 5, some 2, some "D", some 2, some "Bacteria", some "Bacteria"⟩]
      = some 0
    ∧ kaiju_unclassified_plot [⟨none, some "Bacteria", some 5⟩] = some 0
    ∧ (KaijuProcessor.filter_data ⟨true, [⟨none, some "Bacteria", some 5⟩]⟩ 0 10).2
      = some 0 :=
  ⟨claim_C8_unclassified_zero.1 _ (by decide),
   claim_C8_unclassified_zero.2.1 _ (by decide),
   claim_C8_unclassified_zero.2.2 _ 0 10 (by decide)⟩

/-- Witness for claim C10: in a concrete table whose second row has a
missing direct-count cell, the wrangled second row inherits the count 50
of the first row. -/
theorem claim_C10_witness :
    1 < ([⟨none, some 100, some 50, some "D", some 10239, some "Viruses"⟩,
          ⟨none, none, none, some "S", some 2697049, some "Virus X"⟩] :
         List KrakenRawRow).length
    ∧ ((wrangle_kraken
        [⟨none, some 100, some 50, some "D", some 10239, some "Viruses"⟩,
         ⟨none, none, none, some "S", some 2697049, some "Virus X"⟩])[1]?).map
        KrakenRow.count = some (some 50) := by
  refine ⟨by decide, ?_⟩
  have h := (claim_C10_ffill_whole_table
    [⟨none, some 100, some 50, some "D", some 10239, some "Viruses"⟩,
     ⟨none, none, none, some "S", some 2697049, some "Virus X"⟩] 1 (by decide)).2.2.1
  rw [h]
  decide
